import Mathlib

/-!
Shallow embedding of the PLNU MBA Performance Dashboard (`app.py`).

The program extracts CSV payloads from ZIP archives into a flat working
directory, loads and concatenates them into one pandas DataFrame, normalizes
column names, coerces the `date` column, drops rows with unparseable dates,
and serves a Flask dashboard that filters the table by athlete and date range
and renders a two-series chart.

DataFrames are modelled as a list of column names together with rows of cells;
timestamps are modelled as naturals ordered like the real timestamps; pandas
operations used by the program (boolean-mask row selection, `concat` with
column alignment, `unique`, `to_datetime` with and without coercion) are
translated into executable Lean functions.
-/

/-- A cell of a DataFrame: a string, a number, a parsed timestamp, or a
missing value (NaN / NaT). -/
inductive Cell where
  | str (s : String)
  | num (n : Int)
  | date (d : Nat)
  | na
deriving DecidableEq

/-- An in-memory table: column labels plus rows of cells (row-major,
positions aligned with `cols`). -/
structure DataFrame where
  cols : List String
  rows : List (List Cell)
deriving DecidableEq

/-- Equality of fallible results is decidable, so the pipeline can be
evaluated on concrete inputs. -/
instance exceptDecEq {ε α : Type} [DecidableEq ε] [DecidableEq α] :
    DecidableEq (Except ε α) := fun x y =>
  match x, y with
  | Except.ok a, Except.ok b =>
    if h : a = b then isTrue (by rw [h])
    else isFalse (fun hx => h (Except.ok.inj hx))
  | Except.error a, Except.error b =>
    if h : a = b then isTrue (by rw [h])
    else isFalse (fun hx => h (Except.error.inj hx))
  | Except.ok _, Except.error _ => isFalse (fun hx => Except.noConfusion hx)
  | Except.error _, Except.ok _ => isFalse (fun hx => Except.noConfusion hx)

/-- First index of a column label in a label list (pandas label lookup). -/
def idxOf? (c : String) : List String → Option Nat
  | [] => none
  | c' :: cs => if c' = c then some 0 else (idxOf? c cs).map (· + 1)

/-- Cell of a row at a position; out-of-range reads give the missing value. -/
def cellAt (r : List Cell) (i : Nat) : Cell := r.getD i Cell.na

/-- The column series at position `i` (pandas `df[label]`). -/
def column (df : DataFrame) (i : Nat) : List Cell :=
  df.rows.map (fun r => cellAt r i)

/-- pandas scalar equality on cells: a missing value is never equal to
anything (NaN == x is False). -/
def cellEqPd (a b : Cell) : Bool :=
  match a, b with
  | Cell.na, _ => false
  | _, Cell.na => false
  | x, y => x == y

/-! ## Column-name normalization (`df.columns.str.strip().str.lower().str.replace(" ", "_")`) -/

/-- Whitespace as stripped by `str.strip`: space, tab, CR, LF. -/
def isSpaceChar (c : Char) : Bool :=
  decide (c.toNat = 32) || decide (c.toNat = 9) || decide (c.toNat = 13) || decide (c.toNat = 10)

/-- ASCII lowercasing of one character (`str.lower`). -/
def lowerChar (c : Char) : Char :=
  if 65 ≤ c.toNat ∧ c.toNat ≤ 90 then Char.ofNat (c.toNat + 32) else c

/-- Python `str.replace(" ", "_")` on one character. -/
def underscoreChar (c : Char) : Char :=
  if c.toNat = 32 then '_' else c

/-- The per-character effect of lowercasing then replacing spaces. -/
def normChar (c : Char) : Char := underscoreChar (lowerChar c)

/-- Python `str.lstrip`. -/
def lstripL (l : List Char) : List Char := l.dropWhile isSpaceChar

/-- Python `str.rstrip`. -/
def rstripL (l : List Char) : List Char := (l.reverse.dropWhile isSpaceChar).reverse

/-- Python `str.strip`. -/
def pyStrip (l : List Char) : List Char := rstripL (lstripL l)

/-- Column-label normalization on character lists: strip, lowercase, replace
interior spaces with underscores. -/
def normalizeL (l : List Char) : List Char := (pyStrip l).map normChar

/-- Column-label normalization on strings (line 69 of `app.py`). -/
def normalizeCol (s : String) : String := String.mk (normalizeL s.data)

/-! ## Date parsing (`pd.to_datetime`) -/

/-- Split a character list on a separator character. -/
def splitOnChar (sep : Char) : List Char → List (List Char)
  | [] => [[]]
  | c :: cs =>
    let r := splitOnChar sep cs
    if c = sep then [] :: r
    else
      match r with
      | [] => [[c]]
      | g :: gs => (c :: g) :: gs

/-- Parse a non-empty digit string into a natural number. -/
def digitsAux : List Char → Nat → Option Nat
  | [], acc => some acc
  | c :: cs, acc =>
    if c.isDigit then digitsAux cs (acc * 10 + (c.toNat - 48)) else none

/-- Parse a non-empty digit string; empty input fails. -/
def digits? : List Char → Option Nat
  | [] => none
  | c :: cs => digitsAux (c :: cs) 0

/-- Parse an ISO-like `YYYY-MM-DD` string into a timestamp code. The code
`y * 10000 + m * 100 + d` is ordered exactly like the calendar dates it
encodes, which is all the program relies on. -/
def parseISO (s : String) : Option Nat :=
  match (splitOnChar '-' s.data).map digits? with
  | [some y, some m, some d] =>
    if 1 ≤ m ∧ m ≤ 12 ∧ 1 ≤ d ∧ d ≤ 31 then some (y * 10000 + m * 100 + d) else none
  | _ => none

/-- Model of `pd.to_datetime` on one scalar: a string is parsed, an existing timestamp
passes through, everything else fails. -/
def to_datetime : Cell → Option Nat
  | Cell.str s => parseISO s
  | Cell.date d => some d
  | _ => none

/-- Coercing variant `pd.to_datetime(c, errors="coerce")`: failures become the missing
marker NaT. -/
def coerceDateCell (c : Cell) : Cell :=
  match to_datetime c with
  | some d => Cell.date d
  | none => Cell.na

/-- Whether a cell is the missing marker. -/
def Cell.isNa : Cell → Bool
  | Cell.na => true
  | _ => false

/-! ## Load and merge (lines 48-71 of `app.py`) -/

/-- pandas `DataFrame.empty`: true when either axis has length zero. -/
def pdEmpty (t : DataFrame) : Bool := t.rows.isEmpty || t.cols.isEmpty

/-- The source tables kept by the loading loop: parse failures (`none`) are
skipped, empty tables are skipped. -/
def loadFrames (srcs : List (Option DataFrame)) : List DataFrame :=
  (srcs.filterMap id).filter (fun t => !pdEmpty t)

/-- Append a column label if it is not present yet. -/
def insertCol (acc : List String) (c : String) : List String :=
  if c ∈ acc then acc else acc ++ [c]

/-- Union of the column labels of several tables, ordered by first
appearance (pandas `concat` column alignment). -/
def unionCols (ts : List DataFrame) : List String :=
  ts.foldl (fun a t => t.cols.foldl insertCol a) []

/-- Re-express a row of a table with columns `cols` over the target label
list, filling missing labels with NaN. -/
def reindexRow (cols target : List String) (row : List Cell) : List Cell :=
  target.map (fun c =>
    match idxOf? c cols with
    | some i => cellAt row i
    | none => Cell.na)

/-- Model of `pd.concat(all_data_frames, ignore_index=True)`. -/
def concatFrames (ts : List DataFrame) : DataFrame :=
  let tc := unionCols ts
  ⟨tc, (ts.map (fun t => t.rows.map (reindexRow t.cols tc))).flatten⟩

/-- Rename every column label with the normalization transform (line 69). -/
def normalizeCols (df : DataFrame) : DataFrame :=
  ⟨df.cols.map normalizeCol, df.rows⟩

/-- Errors that abort startup before the web surface exists. -/
inductive StartupError where
  | noValidData
  | missingColumn (c : String)
  | indexError
deriving DecidableEq

/-- Lines 70-71: coerce the `date` column and drop rows whose date is
missing after coercion; `df["date"]` raises when the column is absent. -/
def processDates (df : DataFrame) : Except StartupError DataFrame :=
  match idxOf? "date" df.cols with
  | none => Except.error (StartupError.missingColumn "date")
  | some i =>
    Except.ok
      ⟨df.cols,
        (df.rows.map (fun r => r.set i (coerceDateCell (cellAt r i)))).filter
          (fun r => !(cellAt r i).isNa)⟩

/-- The merged, column-normalized table, before date processing. -/
def mergedOf (frames : List DataFrame) : DataFrame :=
  normalizeCols (concatFrames frames)

/-- Lines 48-71: load, merge, normalize, process dates. `exit(1)` when no
table loaded is the `noValidData` error. -/
def buildUnified (srcs : List (Option DataFrame)) : Except StartupError DataFrame :=
  let frames := loadFrames srcs
  if frames.isEmpty then Except.error StartupError.noValidData
  else processDates (mergedOf frames)

/-- pandas `Series.unique`: values in order of first appearance. -/
def uniqueAux : List Cell → List Cell → List Cell
  | [], _ => []
  | x :: xs, seen =>
    if x ∈ seen then uniqueAux xs seen else x :: uniqueAux xs (x :: seen)

/-- pandas `Series.unique`. -/
def uniquePd (l : List Cell) : List Cell := uniqueAux l []

/-- Line 76: `DEFAULT_ATHLETE = df["name"].unique()[0]` — raises when the
column is absent, and raises an index error when the table has no rows. -/
def startup (srcs : List (Option DataFrame)) : Except StartupError (DataFrame × Cell) :=
  match buildUnified srcs with
  | Except.error e => Except.error e
  | Except.ok udf =>
    match idxOf? "name" udf.cols with
    | none => Except.error (StartupError.missingColumn "name")
    | some ni =>
      match (uniquePd (column udf ni)).head? with
      | none => Except.error StartupError.indexError
      | some d => Except.ok (udf, d)

/-- Line 77. -/
def DEFAULT_VAR1 : String := "time_to_takeoff"

/-- Line 78. -/
def DEFAULT_VAR2 : String := "mrsi"

/-! ## Query engine and chart renderer (`create_plot`, lines 100-151) -/

/-- Errors raised inside `create_plot` (KeyError on a missing column,
parse error on a date bound). -/
inductive PlotError where
  | missingColumn (c : String)
  | badBound (b : Cell)
deriving DecidableEq

/-- Elementwise `series == scalar` (NaN compares unequal). -/
def seriesEqMask (col : List Cell) (v : Cell) : List Bool :=
  col.map (fun c => cellEqPd c v)

/-- One cell of `df["date"] >= ts`: NaT and non-date cells compare False. -/
def dateGe (c : Cell) (t : Nat) : Bool :=
  match c with
  | Cell.date d => decide (t ≤ d)
  | _ => false

/-- One cell of `df["date"] <= ts`. -/
def dateLe (c : Cell) (t : Nat) : Bool :=
  match c with
  | Cell.date d => decide (d ≤ t)
  | _ => false

/-- Elementwise `series >= scalar` on the date column. -/
def seriesGeMask (col : List Cell) (t : Nat) : List Bool :=
  col.map (fun c => dateGe c t)

/-- Elementwise `series <= scalar` on the date column. -/
def seriesLeMask (col : List Cell) (t : Nat) : List Bool :=
  col.map (fun c => dateLe c t)

/-- Elementwise `&` of two boolean masks. -/
def andMaskL (a b : List Bool) : List Bool :=
  List.zipWith (fun x y => x && y) a b

/-- Boolean row selection `df[mask]`: keep the rows whose mask entry is true. -/
def boolIndex (df : DataFrame) (mask : List Bool) : DataFrame :=
  ⟨df.cols,
    (df.rows.zip mask).filterMap (fun rb => if rb.2 then some rb.1 else none)⟩

/-- Lines 104-108: the boolean-mask row selection of `create_plot`. Returns
an error exactly where the Python expression raises: missing `name` or
`date` column, or an unparseable date bound. -/
def queryFilter (df : DataFrame) (athlete : Cell) (startB endB : Cell) :
    Except PlotError DataFrame :=
  match idxOf? "name" df.cols with
  | none => Except.error (PlotError.missingColumn "name")
  | some ni =>
    match idxOf? "date" df.cols with
    | none => Except.error (PlotError.missingColumn "date")
    | some di =>
      match to_datetime startB with
      | none => Except.error (PlotError.badBound startB)
      | some s =>
        match to_datetime endB with
        | none => Except.error (PlotError.badBound endB)
        | some e =>
          Except.ok
            (boolIndex df
              (andMaskL
                (andMaskL (seriesEqMask (column df ni) athlete)
                  (seriesGeMask (column df di) s))
                (seriesLeMask (column df di) e)))

/-- Line 112: the fixed no-data notice. -/
def noDataNotice : String :=
  "<h3>No data available for the selected athlete and date range.</h3>"

/-- Printable form of a cell. -/
def cellText : Cell → String
  | Cell.str s => s
  | Cell.num n => toString n
  | Cell.date d => toString d
  | Cell.na => "NaN"

/-- The embeddable chart markup produced by `pio.to_html` for the two
traces: title with the athlete, the shared date axis, and both series. -/
def chartHtml (athlete : Cell) (var1 var2 : String)
    (dates y1 y2 : List Cell) : String :=
  "<div>Performance Over Time - " ++ cellText athlete ++
    ";dates:" ++ String.intercalate "," (dates.map cellText) ++
    ";" ++ var1 ++ ":" ++ String.intercalate "," (y1.map cellText) ++
    ";" ++ var2 ++ ":" ++ String.intercalate "," (y2.map cellText) ++ "</div>"

/-- Lines 110-151: the rendering half of `create_plot`. An empty view gives
the fixed notice; otherwise the traces read `filtered_df["date"]`,
`filtered_df[var1]`, `filtered_df[var2]`, raising KeyError at the first
label that is not a column. -/
def renderChart (view : DataFrame) (athlete : Cell) (var1 var2 : String) :
    Except PlotError String :=
  if view.rows.isEmpty then Except.ok noDataNotice
  else
    match idxOf? "date" view.cols with
    | none => Except.error (PlotError.missingColumn "date")
    | some di =>
      match idxOf? var1 view.cols with
      | none => Except.error (PlotError.missingColumn var1)
      | some i1 =>
        match idxOf? var2 view.cols with
        | none => Except.error (PlotError.missingColumn var2)
        | some i2 =>
          Except.ok
            (chartHtml athlete var1 var2 (column view di) (column view i1)
              (column view i2))

/-- Function `create_plot` (lines 100-151): boolean-mask selection, then rendering. -/
def create_plot (df : DataFrame) (athlete : Cell) (var1 var2 : String)
    (startB endB : Cell) : Except PlotError String :=
  match queryFilter df athlete startB endB with
  | Except.error e => Except.error e
  | Except.ok view => renderChart view athlete var1 var2

/-! ## Web endpoint (`create_app().index`, lines 84-96, and the module-level
rebinding that actually runs, lines 153-166) -/

/-- The five request parameters after default substitution. -/
structure Params where
  athlete : Cell
  var1 : String
  var2 : String
  startB : Cell
  endB : Cell
deriving DecidableEq

/-- Minimum of the date column (`df["date"].min()`): NaT entries are
skipped; an empty column gives NaT. -/
def seriesMinD (l : List Cell) : Cell :=
  match l.filterMap (fun c => match c with | Cell.date d => some d | _ => none) with
  | [] => Cell.na
  | x :: xs => Cell.date (xs.foldl Nat.min x)

/-- Maximum of the date column (`df["date"].max()`). -/
def seriesMaxD (l : List Cell) : Cell :=
  match l.filterMap (fun c => match c with | Cell.date d => some d | _ => none) with
  | [] => Cell.na
  | x :: xs => Cell.date (xs.foldl Nat.max x)

/-- Minimum `df["date"].min()` on a table. -/
def dateMin (df : DataFrame) : Cell :=
  match idxOf? "date" df.cols with
  | some i => seriesMinD (column df i)
  | none => Cell.na

/-- Maximum `df["date"].max()` on a table. -/
def dateMax (df : DataFrame) : Cell :=
  match idxOf? "date" df.cols with
  | some i => seriesMaxD (column df i)
  | none => Cell.na

/-- Lines 88-92: `request.form.get(key, default)` for the five fields. -/
def resolveParams (form : String → Option String) (df : DataFrame)
    (defaultAthlete : Cell) : Params :=
  { athlete := (form "athlete").elim defaultAthlete Cell.str
    var1 := (form "var1").getD DEFAULT_VAR1
    var2 := (form "var2").getD DEFAULT_VAR2
    startB := (form "start_date").elim (dateMin df) Cell.str
    endB := (form "end_date").elim (dateMax df) Cell.str }

/-- HTTP methods relevant to the program. -/
inductive Method where
  | GET
  | POST
deriving DecidableEq

/-- A response of the web surface. -/
inductive HttpResponse where
  | html (s : String)
  | serverError
  | methodNotAllowed
  | notFound
deriving DecidableEq

/-- Line 96: the rendered `index.html` fragment — chart markup plus the
athlete option list (`df["name"].unique()`) and the column option list
(`df.columns.tolist()`). -/
def renderIndexTemplate (plot : String) (athletes : List Cell)
    (varNames : List String) : String :=
  "<html>" ++ plot ++ "<select>" ++
    String.intercalate "," (athletes.map cellText) ++
    "</select><select>" ++ String.intercalate "," varNames ++
    "</select></html>"

/-- Lines 84-96: the dashboard handler of the `create_app` factory. An
exception from `create_plot` propagates as an unhandled request error. -/
def index (df : DataFrame) (defaultAthlete : Cell)
    (form : String → Option String) : HttpResponse :=
  let p := resolveParams form df defaultAthlete
  match create_plot df p.athlete p.var1 p.var2 p.startB p.endB with
  | Except.ok plot =>
    HttpResponse.html
      (renderIndexTemplate plot
        (uniquePd (column df ((idxOf? "name" df.cols).getD 0))) df.cols)
  | Except.error _ => HttpResponse.serverError

/-- The dashboard application that `create_app` would build: the root route
accepts GET and POST and runs `index`. `create_app` is never called. -/
def dashboardApp (df : DataFrame) (defaultAthlete : Cell) (m : Method)
    (path : String) (form : String → Option String) : HttpResponse :=
  if path = "/" then index df defaultAthlete form else HttpResponse.notFound

/-- Line 159: the body of the `home` route. -/
def homeBody : String := "Flask is working!"

/-- Lines 153-166: the application object that `app.run` actually serves.
`app` was rebound at line 155, so only the GET-only `home` route exists;
POST to the root path is rejected by the framework. -/
def servedApp (m : Method) (path : String) : HttpResponse :=
  if path = "/" then
    match m with
    | Method.GET => HttpResponse.html homeBody
    | Method.POST => HttpResponse.methodNotAllowed
  else HttpResponse.notFound

/-! ## Archive extraction (lines 21-36) -/

/-- One payload entry of a ZIP archive: its path inside the archive and its
bytes. -/
structure ZipEntry where
  name : String
  bytes : List Nat
deriving DecidableEq

/-- Characters after the last slash (`os.path.basename`). -/
def basenameL (l : List Char) : List Char :=
  l.foldl (fun acc c => if c = '/' then [] else acc ++ [c]) []

/-- Model of `os.path.basename`. -/
def basename (s : String) : String := String.mk (basenameL s.data)

/-- Check `file.endswith(".csv")`. -/
def isCsvName (s : String) : Bool := List.isSuffixOf ".csv".data s.data

/-- The working directory: extracted path ↦ bytes. -/
def FS : Type := List (String × List Nat)

/-- Read a file of the working directory. -/
def lookupFS (fs : FS) (p : String) : Option (List Nat) :=
  (List.find? (fun e => e.1 == p) fs).map Prod.snd

/-- Writing `open(path, "wb")` then `write`: replaces any previous content at the
path. -/
def writeFile (fs : FS) (p : String) (b : List Nat) : FS :=
  (p, b) :: List.filter (fun e => !(e.1 == p)) fs

/-- Lines 30-33: one iteration of the inner loop — a `.csv` entry is written
to the working directory under its base filename, others are skipped. -/
def extractEntry (fs : FS) (e : ZipEntry) : FS :=
  if isCsvName e.name then writeFile fs (basename e.name) e.bytes else fs

/-- The inner loop over an archive's entry list. -/
def extractEntries (fs : FS) (es : List ZipEntry) : FS :=
  es.foldl extractEntry fs

/-- Lines 26-36: the outer loop over all readable archives, starting from
whatever the working directory already holds. -/
def extractArchives (fs : FS) (archives : List (List ZipEntry)) : FS :=
  archives.foldl extractEntries fs

/-- The last `.csv` entry of a list whose base filename is `b`. -/
def lastCsvMatch (b : String) : List ZipEntry → Option ZipEntry
  | [] => none
  | e :: es =>
    match lastCsvMatch b es with
    | some r => some r
    | none => if isCsvName e.name ∧ basename e.name = b then some e else none

/-! ## Specification-side definitions -/

/-- From the spec's words (§4.4): a row matches when the subject identifier
column equals the subject exactly and the date lies within the inclusive
range. -/
def dateWithin (c : Cell) (s e : Nat) : Bool :=
  match c with
  | Cell.date d => decide (s ≤ d) && decide (d ≤ e)
  | _ => false

/-- From the spec's words (§4.4): the row predicate of the Query Engine. -/
def specRowMatch (ni di : Nat) (subject : Cell) (s e : Nat)
    (r : List Cell) : Bool :=
  cellEqPd (cellAt r ni) subject && dateWithin (cellAt r di) s e

/-- From the spec's words (§4.4): exactly the matching rows, in order. -/
def specViewRows (df : DataFrame) (ni di : Nat) (subject : Cell)
    (s e : Nat) : List (List Cell) :=
  df.rows.filter (specRowMatch ni di subject s e)

/-- Sum of the row counts of the non-empty successfully parsed source
tables. -/
def sumRowsLoaded (srcs : List (Option DataFrame)) : Nat :=
  ((loadFrames srcs).map (fun t => t.rows.length)).sum

/-- The number of rows of the merged table dropped because their date value
does not parse. -/
def droppedCount (srcs : List (Option DataFrame)) : Nat :=
  let merged := mergedOf (loadFrames srcs)
  match idxOf? "date" merged.cols with
  | some i =>
    (merged.rows.map (fun r => r.set i (coerceDateCell (cellAt r i)))).countP
      (fun r => (cellAt r i).isNa)
  | none => 0

/-! ## Concrete sample data used to exercise the theorems -/

/-- A small Unified Table with the program's two default metric columns. -/
def sampleDf : DataFrame :=
  ⟨["name", "date", "time_to_takeoff", "mrsi"],
    [[Cell.str "A", Cell.date 20240101, Cell.num 1, Cell.num 2],
     [Cell.str "B", Cell.date 20240102, Cell.num 3, Cell.num 4]]⟩

/-- The view `sampleDf` yields for subject `A` over 2024-01-01..2024-01-05. -/
def sampleView : DataFrame :=
  ⟨["name", "date", "time_to_takeoff", "mrsi"],
    [[Cell.str "A", Cell.date 20240101, Cell.num 1, Cell.num 2]]⟩

/-- Source tables as loaded from CSVs: one good table with one unparseable
date, one load failure, one empty table. -/
def sampleSrcs : List (Option DataFrame) :=
  [some ⟨["Name", "Date"],
      [[Cell.str "A", Cell.str "2024-01-01"], [Cell.str "B", Cell.str "bad"]]⟩,
   none,
   some ⟨["x"], []⟩]

/-- The Unified Table `sampleSrcs` produces. -/
def sampleUnified : DataFrame :=
  ⟨["name", "date"], [[Cell.str "A", Cell.date 20240101]]⟩


/-! ## Helper lemmas -/

theorem lowerChar_toNat_upper {c : Char} (h : 65 ≤ c.toNat ∧ c.toNat ≤ 90) :
    (lowerChar c).toNat = c.toNat + 32 := by
  have hv : (c.toNat + 32).isValidChar := Or.inl (by omega)
  unfold lowerChar
  rw [if_pos h, Char.ofNat, dif_pos hv]
  rfl

theorem lowerChar_eq_self {c : Char} (h : ¬(65 ≤ c.toNat ∧ c.toNat ≤ 90)) :
    lowerChar c = c := by
  unfold lowerChar
  rw [if_neg h]

theorem underscoreChar_eq_self {c : Char} (h : ¬ c.toNat = 32) :
    underscoreChar c = c := by
  unfold underscoreChar
  rw [if_neg h]

theorem normChar_idem (c : Char) : normChar (normChar c) = normChar c := by
  by_cases hs : c.toNat = 32
  · have hlo : lowerChar c = c := lowerChar_eq_self (by omega)
    have h1 : normChar c = '_' := by
      unfold normChar
      rw [hlo]
      unfold underscoreChar
      rw [if_pos hs]
    rw [h1]
    unfold normChar
    have hlo2 : lowerChar '_' = '_' := lowerChar_eq_self (by decide)
    rw [hlo2]
    exact underscoreChar_eq_self (by decide)
  · by_cases hu : 65 ≤ c.toNat ∧ c.toNat ≤ 90
    · have ht := lowerChar_toNat_upper hu
      have h1 : normChar c = lowerChar c := by
        unfold normChar
        exact underscoreChar_eq_self (by omega)
      rw [h1]
      unfold normChar
      have hlo2 : lowerChar (lowerChar c) = lowerChar c :=
        lowerChar_eq_self (by omega)
      rw [hlo2]
      exact underscoreChar_eq_self (by omega)
    · have h1 : normChar c = c := by
        unfold normChar
        rw [lowerChar_eq_self hu]
        exact underscoreChar_eq_self hs
      rw [h1, h1]

theorem isSpaceChar_normChar {c : Char} (h : isSpaceChar c = false) :
    isSpaceChar (normChar c) = false := by
  have hs : ¬ c.toNat = 32 := by
    intro hc
    simp [isSpaceChar, hc] at h
  by_cases hu : 65 ≤ c.toNat ∧ c.toNat ≤ 90
  · have ht := lowerChar_toNat_upper hu
    have h1 : normChar c = lowerChar c := by
      unfold normChar
      exact underscoreChar_eq_self (by omega)
    rw [h1]
    simp only [isSpaceChar, Bool.or_eq_false_iff, decide_eq_false_iff_not]
    omega
  · have h1 : normChar c = c := by
      unfold normChar
      rw [lowerChar_eq_self hu]
      exact underscoreChar_eq_self hs
    rw [h1, h]

theorem head?_dropWhile_false {p : Char → Bool} {l : List Char} {x : Char}
    (h : (l.dropWhile p).head? = some x) : p x = false := by
  induction l with
  | nil => simp [List.dropWhile] at h
  | cons a l ih =>
    rw [List.dropWhile_cons] at h
    by_cases hp : p a = true
    · rw [if_pos hp] at h
      exact ih h
    · rw [if_neg hp] at h
      simp at h
      rw [← h]
      simpa using hp

theorem dropWhile_eq_self_of_head {p : Char → Bool} {l : List Char}
    (h : ∀ x, l.head? = some x → p x = false) : l.dropWhile p = l := by
  cases l with
  | nil => rfl
  | cons a l =>
    rw [List.dropWhile_cons, if_neg]
    simp [h a rfl]

theorem dropWhile_is_suffix (p : Char → Bool) (l : List Char) :
    ∃ t, t ++ l.dropWhile p = l := by
  induction l with
  | nil => exact ⟨[], rfl⟩
  | cons a l ih =>
    by_cases hp : p a = true
    · obtain ⟨t, ht⟩ := ih
      exact ⟨a :: t, by rw [List.dropWhile_cons, if_pos hp]; simp [ht]⟩
    · exact ⟨[], by rw [List.dropWhile_cons, if_neg hp]; rfl⟩

theorem head?_rstripL {m : List Char} {x : Char}
    (h : (rstripL m).head? = some x) : m.head? = some x := by
  unfold rstripL at h
  obtain ⟨t, ht⟩ := dropWhile_is_suffix isSpaceChar m.reverse
  have hm : m = (m.reverse.dropWhile isSpaceChar).reverse ++ t.reverse := by
    have := congrArg List.reverse ht
    simpa [List.reverse_append] using this.symm
  rw [hm]
  cases hd : (m.reverse.dropWhile isSpaceChar).reverse with
  | nil => rw [hd] at h; simp at h
  | cons y ys =>
    rw [hd] at h
    simp at h
    simp [hd, h]

theorem head?_normalizeL_false {l : List Char} {x : Char}
    (h : (normalizeL l).head? = some x) : isSpaceChar x = false := by
  unfold normalizeL at h
  rw [List.head?_map] at h
  cases hu : (pyStrip l).head? with
  | none => rw [hu] at h; simp at h
  | some y =>
    rw [hu] at h
    simp at h
    have hy : isSpaceChar y = false := by
      unfold pyStrip at hu
      have := head?_rstripL hu
      exact head?_dropWhile_false this
    rw [← h]
    exact isSpaceChar_normChar hy

theorem reverse_head?_normalizeL_false {l : List Char} {x : Char}
    (h : (normalizeL l).reverse.head? = some x) : isSpaceChar x = false := by
  unfold normalizeL at h
  rw [← List.map_reverse, List.head?_map] at h
  cases hu : (pyStrip l).reverse.head? with
  | none => rw [hu] at h; simp at h
  | some y =>
    rw [hu] at h
    simp at h
    have hy : isSpaceChar y = false := by
      unfold pyStrip rstripL at hu
      rw [List.reverse_reverse] at hu
      exact head?_dropWhile_false hu
    rw [← h]
    exact isSpaceChar_normChar hy

theorem pyStrip_normalizeL (l : List Char) :
    pyStrip (normalizeL l) = normalizeL l := by
  have hl : lstripL (normalizeL l) = normalizeL l :=
    dropWhile_eq_self_of_head (fun x hx => head?_normalizeL_false hx)
  unfold pyStrip
  rw [hl]
  unfold rstripL
  rw [dropWhile_eq_self_of_head (fun x hx => reverse_head?_normalizeL_false hx),
    List.reverse_reverse]

theorem map_normChar_normalizeL (l : List Char) :
    (normalizeL l).map normChar = normalizeL l := by
  unfold normalizeL
  rw [List.map_map]
  apply List.map_congr_left
  intro a _
  exact normChar_idem a

theorem normalizeL_idem (l : List Char) :
    normalizeL (normalizeL l) = normalizeL l := by
  have h1 : normalizeL (normalizeL l) = (pyStrip (normalizeL l)).map normChar := rfl
  rw [h1, pyStrip_normalizeL, map_normChar_normalizeL]

/-- C6: the column-name normalization (trim whitespace, lowercase, replace
interior spaces with underscores) is idempotent — applying `normalizeCol`
twice to any column label yields the same result as applying it once. -/
theorem c6_normalize_idempotent (s : String) :
    normalizeCol (normalizeCol s) = normalizeCol s := by
  unfold normalizeCol
  exact congrArg String.mk (normalizeL_idem s.data)

theorem filterMap_zip_map (p : List Cell → Bool) (rows : List (List Cell)) :
    (rows.zip (rows.map p)).filterMap
      (fun rb => if rb.2 then some rb.1 else none) = rows.filter p := by
  induction rows with
  | nil => rfl
  | cons r rs ih =>
    cases hb : p r with
    | true => simp [List.filterMap_cons, List.filter_cons, hb, ih]
    | false => simp [List.filterMap_cons, List.filter_cons, hb, ih]

theorem zip_mask_filterMap (f g h : List Cell → Bool) (rows : List (List Cell)) :
    (rows.zip
        (andMaskL (andMaskL (rows.map f) (rows.map g)) (rows.map h))).filterMap
      (fun rb => if rb.2 then some rb.1 else none)
    = rows.filter (fun r => (f r && g r) && h r) := by
  have hmask :
      andMaskL (andMaskL (rows.map f) (rows.map g)) (rows.map h)
        = rows.map (fun r => (f r && g r) && h r) := by
    simp [andMaskL]
  rw [hmask, filterMap_zip_map]

theorem rowPred_eq (ni di : Nat) (a : Cell) (s e : Nat) (r : List Cell) :
    ((cellEqPd (cellAt r ni) a && dateGe (cellAt r di) s) &&
      dateLe (cellAt r di) e) = specRowMatch ni di a s e r := by
  unfold specRowMatch dateWithin dateGe dateLe
  cases cellAt r di <;> simp [Bool.and_assoc]

theorem boolIndex_masks (df : DataFrame) (ni di : Nat) (a : Cell) (s e : Nat) :
    boolIndex df
      (andMaskL
        (andMaskL (seriesEqMask (column df ni) a) (seriesGeMask (column df di) s))
        (seriesLeMask (column df di) e))
    = ⟨df.cols, specViewRows df ni di a s e⟩ := by
  unfold boolIndex specViewRows
  congr 1
  unfold seriesEqMask seriesGeMask seriesLeMask column
  rw [List.map_map, List.map_map, List.map_map, zip_mask_filterMap]
  apply List.filter_congr
  intro r _
  exact rowPred_eq ni di a s e r

/-- C2: when the subject and date columns exist and both bounds coerce, the
query filter of `create_plot` returns exactly the rows of the table whose
subject column equals the given subject and whose date lies within the
inclusive coerced range, with the table's column set. -/
theorem c2_query_filter_exact (df : DataFrame) (a sB eB : Cell)
    (ni di s e : Nat)
    (hn : idxOf? "name" df.cols = some ni)
    (hd : idxOf? "date" df.cols = some di)
    (hs : to_datetime sB = some s)
    (he : to_datetime eB = some e) :
    queryFilter df a sB eB = Except.ok ⟨df.cols, specViewRows df ni di a s e⟩ := by
  simp only [queryFilter, hn, hd, hs, he]
  rw [boolIndex_masks]

theorem queryFilter_ok_elim {df : DataFrame} {a sB eB : Cell} {view : DataFrame}
    (h : queryFilter df a sB eB = Except.ok view) :
    ∃ ni di s e,
      idxOf? "name" df.cols = some ni ∧ idxOf? "date" df.cols = some di ∧
      to_datetime sB = some s ∧ to_datetime eB = some e ∧
      view = ⟨df.cols, specViewRows df ni di a s e⟩ := by
  unfold queryFilter at h
  cases hn : idxOf? "name" df.cols with
  | none => simp only [hn] at h; exact Except.noConfusion h
  | some ni =>
    simp only [hn] at h
    cases hd : idxOf? "date" df.cols with
    | none => simp only [hd] at h; exact Except.noConfusion h
    | some di =>
      simp only [hd] at h
      cases hs : to_datetime sB with
      | none => simp only [hs] at h; exact Except.noConfusion h
      | some s =>
        simp only [hs] at h
        cases he : to_datetime eB with
        | none => simp only [he] at h; exact Except.noConfusion h
        | some e =>
          simp only [he] at h
          rw [boolIndex_masks] at h
          exact ⟨ni, di, s, e, rfl, rfl, rfl, rfl, (Except.ok.inj h).symm⟩

/-- C7: whenever the query filter succeeds, the filtered view has exactly
the column set of the table it filtered, and every row of the view is a row
of that table. -/
theorem c7_filtered_view_subset (df : DataFrame) (a sB eB : Cell)
    (view : DataFrame) (h : queryFilter df a sB eB = Except.ok view) :
    view.cols = df.cols ∧ ∀ r ∈ view.rows, r ∈ df.rows := by
  obtain ⟨ni, di, s, e, _, _, _, _, hv⟩ := queryFilter_ok_elim h
  subst hv
  refine ⟨rfl, ?_⟩
  intro r hr
  exact (List.mem_filter.mp hr).1

/-- C3: when the query filter succeeds and matches no rows, `create_plot`
returns the fixed no-data notice — an ordinary value, not an error. -/
theorem c3_empty_view_no_data_notice (df : DataFrame) (a : Cell)
    (var1 var2 : String) (sB eB : Cell) (view : DataFrame)
    (h : queryFilter df a sB eB = Except.ok view)
    (hempty : view.rows = []) :
    create_plot df a var1 var2 sB eB = Except.ok noDataNotice := by
  simp only [create_plot, h]
  unfold renderChart
  rw [hempty]
  rfl

theorem idxOf?_mem {c : String} {l : List String} {i : Nat}
    (h : idxOf? c l = some i) : c ∈ l := by
  induction l generalizing i with
  | nil => simp [idxOf?] at h
  | cons c' cs ih =>
    unfold idxOf? at h
    by_cases hc : c' = c
    · simp [hc]
    · rw [if_neg hc] at h
      cases hj : idxOf? c cs with
      | none => rw [hj] at h; simp at h
      | some j => exact List.mem_cons_of_mem c' (ih hj)

theorem idxOf?_none {c : String} {l : List String}
    (h : c ∈ l) : idxOf? c l ≠ none := by
  induction l with
  | nil => simp at h
  | cons c' cs ih =>
    unfold idxOf?
    by_cases hc : c' = c
    · simp [hc]
    · rw [if_neg hc]
      have hm : c ∈ cs := by
        cases List.mem_cons.mp h with
        | inl he => exact absurd he.symm hc
        | inr hm => exact hm
      cases hj : idxOf? c cs with
      | none => exact absurd hj (ih hm)
      | some j => simp

/-- C4: when the query filter succeeds on a non-empty view and one of the
two requested metrics is not a column of the view, `create_plot` fails with
a missing-column error naming one of the requested metrics, and produces no
chart markup. -/
theorem c4_missing_metric_error (df : DataFrame) (a : Cell)
    (var1 var2 : String) (sB eB : Cell) (view : DataFrame)
    (h : queryFilter df a sB eB = Except.ok view)
    (hne : view.rows ≠ [])
    (hmiss : var1 ∉ view.cols ∨ var2 ∉ view.cols) :
    ∃ c, create_plot df a var1 var2 sB eB =
        Except.error (PlotError.missingColumn c) ∧ (c = var1 ∨ c = var2) := by
  simp only [create_plot, h]
  unfold renderChart
  rw [if_neg (by simpa [List.isEmpty_iff] using hne)]
  obtain ⟨ni, di, s, e, hn, hd, _, _, hv⟩ := queryFilter_ok_elim h
  have hdate : idxOf? "date" view.cols = idxOf? "date" df.cols := by rw [hv]
  rw [hdate, hd]
  cases hmiss with
  | inl h1 =>
    have : idxOf? var1 view.cols = none := by
      cases hx : idxOf? var1 view.cols with
      | none => rfl
      | some i => exact absurd (idxOf?_mem hx) h1
    rw [this]
    exact ⟨var1, rfl, Or.inl rfl⟩
  | inr h2 =>
    cases hx1 : idxOf? var1 view.cols with
    | none => exact ⟨var1, rfl, Or.inl rfl⟩
    | some i1 =>
      have : idxOf? var2 view.cols = none := by
        cases hx : idxOf? var2 view.cols with
        | none => rfl
        | some i => exact absurd (idxOf?_mem hx) h2
      rw [this]
      exact ⟨var2, rfl, Or.inr rfl⟩

/-- C1: the web surface the program actually runs is the rebound module-level
`app`, whose only root route is the GET-only `home` stub: POST to the root
path is rejected and GET answers the fixed test string, not the dashboard
fragment with chart markup and option lists. -/
theorem c1_served_root_is_temporary_stub :
    servedApp Method.POST "/" = HttpResponse.methodNotAllowed ∧
    servedApp Method.GET "/" = HttpResponse.html "Flask is working!" := by
  decide

theorem length_filter_not_add {α : Type} (q : α → Bool) (l : List α) :
    (l.filter (fun r => !q r)).length + l.countP q = l.length := by
  induction l with
  | nil => rfl
  | cons a l ih =>
    rw [List.filter_cons, List.countP_cons]
    cases hq : q a with
    | true => simp only [hq, Bool.not_true, if_neg]; simp; omega
    | false => simp only [hq, Bool.not_false, if_pos]; simp; omega

theorem mergedOf_rows_length (frames : List DataFrame) :
    (mergedOf frames).rows.length = ((frames.map (fun t => t.rows.length)).sum) := by
  unfold mergedOf normalizeCols concatFrames
  rw [List.length_flatten, List.map_map]
  congr 1
  apply List.map_congr_left
  intro t _
  simp

/-- C5: whenever startup builds the Unified Table, its row count equals the
sum of the row counts of the non-empty successfully parsed source tables
minus the number of merged rows dropped for an unparseable date. -/
theorem c5_unified_row_count (srcs : List (Option DataFrame)) (udf : DataFrame)
    (h : buildUnified srcs = Except.ok udf) :
    udf.rows.length = sumRowsLoaded srcs - droppedCount srcs := by
  simp only [buildUnified] at h
  by_cases hf : (loadFrames srcs).isEmpty
  · rw [if_pos hf] at h
    exact Except.noConfusion h
  · rw [if_neg hf] at h
    unfold processDates at h
    cases hd : idxOf? "date" (mergedOf (loadFrames srcs)).cols with
    | none => simp only [hd] at h; exact Except.noConfusion h
    | some i =>
      simp only [hd] at h
      have hudf := (Except.ok.inj h).symm
      have hr : udf.rows =
          ((mergedOf (loadFrames srcs)).rows.map
            (fun r => r.set i (coerceDateCell (cellAt r i)))).filter
            (fun r => !(cellAt r i).isNa) := by rw [hudf]
      rw [hr]
      have hdrop : droppedCount srcs =
          ((mergedOf (loadFrames srcs)).rows.map
            (fun r => r.set i (coerceDateCell (cellAt r i)))).countP
            (fun r => (cellAt r i).isNa) := by
        simp only [droppedCount, hd]
      have htot := length_filter_not_add (fun r => (cellAt r i).isNa)
        ((mergedOf (loadFrames srcs)).rows.map
          (fun r => r.set i (coerceDateCell (cellAt r i))))
      rw [List.length_map, mergedOf_rows_length] at htot
      have hsum : sumRowsLoaded srcs =
          ((loadFrames srcs).map (fun t => t.rows.length)).sum := rfl
      rw [hdrop, hsum]
      omega

theorem uniquePd_head? (l : List Cell) : (uniquePd l).head? = l.head? := by
  cases l with
  | nil => rfl
  | cons x xs => simp [uniquePd, uniqueAux]

theorem startup_ok_elim {srcs : List (Option DataFrame)} {udf : DataFrame}
    {d : Cell} (h : startup srcs = Except.ok (udf, d)) :
    buildUnified srcs = Except.ok udf ∧
    ∃ ni, idxOf? "name" udf.cols = some ni ∧
      (uniquePd (column udf ni)).head? = some d := by
  unfold startup at h
  cases hb : buildUnified srcs with
  | error e => simp only [hb] at h; exact Except.noConfusion h
  | ok u =>
    simp only [hb] at h
    cases hn : idxOf? "name" u.cols with
    | none => simp only [hn] at h; exact Except.noConfusion h
    | some ni =>
      simp only [hn] at h
      cases hh : (uniquePd (column u ni)).head? with
      | none => simp only [hh] at h; exact Except.noConfusion h
      | some d0 =>
        simp only [hh] at h
        have hp := Except.ok.inj h
        have hu : u = udf := congrArg Prod.fst hp
        have hd : d0 = d := congrArg Prod.snd hp
        subst hu
        subst hd
        exact ⟨rfl, ni, hn, hh⟩

/-- C10: startup succeeds only when the Unified Table has a column named
exactly `name` and at least one row; computing the default athlete indexes
the first unique value of that column without a guard, so success implies
both. -/
theorem c10_startup_requires_name_nonempty (srcs : List (Option DataFrame))
    (udf : DataFrame) (d : Cell) (h : startup srcs = Except.ok (udf, d)) :
    "name" ∈ udf.cols ∧ udf.rows ≠ [] := by
  obtain ⟨_, ni, hn, hh⟩ := startup_ok_elim h
  refine ⟨idxOf?_mem hn, ?_⟩
  rw [uniquePd_head?] at hh
  intro hrows
  have : column udf ni = [] := by
    unfold column
    rw [hrows]
    rfl
  rw [this] at hh
  exact Option.noConfusion hh

/-- C8: each absent form parameter is substituted by its default — the
default subject is the first subject value encountered in the Unified Table
at startup, the default metrics are the two fixed names, and the default
date range is the full minimum-to-maximum span of the Unified Table's date
column. -/
theorem c8_defaults_substitution (srcs : List (Option DataFrame))
    (udf : DataFrame) (d : Cell) (form : String → Option String)
    (h : startup srcs = Except.ok (udf, d)) :
    (form "athlete" = none → (resolveParams form udf d).athlete = d) ∧
    (∃ ni, idxOf? "name" udf.cols = some ni ∧ (column udf ni).head? = some d) ∧
    (form "var1" = none → (resolveParams form udf d).var1 = "time_to_takeoff") ∧
    (form "var2" = none → (resolveParams form udf d).var2 = "mrsi") ∧
    (form "start_date" = none → (resolveParams form udf d).startB = dateMin udf) ∧
    (form "end_date" = none → (resolveParams form udf d).endB = dateMax udf) := by
  obtain ⟨_, ni, hn, hh⟩ := startup_ok_elim h
  rw [uniquePd_head?] at hh
  refine ⟨?_, ⟨ni, hn, hh⟩, ?_, ?_, ?_, ?_⟩
  · intro ha
    simp [resolveParams, ha]
  · intro hv
    simp [resolveParams, hv, DEFAULT_VAR1]
  · intro hv
    simp [resolveParams, hv, DEFAULT_VAR2]
  · intro hs
    simp [resolveParams, hs]
  · intro he
    simp [resolveParams, he]

theorem find?_filter_ne {q p : String} (hq : q ≠ p)
    (fs : List (String × List Nat)) :
    List.find? (fun e => e.1 == q) (List.filter (fun e => !(e.1 == p)) fs)
      = List.find? (fun e => e.1 == q) fs := by
  induction fs with
  | nil => rfl
  | cons e fs ih =>
    by_cases hep : e.1 = p
    · have hpq : (p == q) = false := by
        simp only [beq_eq_false_iff_ne, ne_eq]
        exact fun hx => hq hx.symm
      simp [List.filter_cons, List.find?_cons, hep, hpq, ih]
    · cases heq : (e.1 == q) with
      | true => simp [List.filter_cons, List.find?_cons, hep, heq]
      | false => simp [List.filter_cons, List.find?_cons, hep, heq, ih]

theorem lookupFS_writeFile (fs : FS) (p : String) (b : List Nat) (q : String) :
    lookupFS (writeFile fs p b) q = if q = p then some b else lookupFS fs q := by
  unfold lookupFS writeFile
  by_cases hq : q = p
  · subst hq
    simp [List.find?_cons]
  · rw [if_neg hq]
    have hp : (p == q) = false := by
      simp only [beq_eq_false_iff_ne, ne_eq]
      exact fun hpq => hq hpq.symm
    rw [List.find?_cons, hp]
    rw [find?_filter_ne hq fs]

theorem extractEntries_lookup (es : List ZipEntry) (fs : FS) (b : String) :
    lookupFS (extractEntries fs es) b
      = match lastCsvMatch b es with
        | some e => some e.bytes
        | none => lookupFS fs b := by
  induction es generalizing fs with
  | nil => rfl
  | cons e es ih =>
    rw [show extractEntries fs (e :: es) = extractEntries (extractEntry fs e) es from rfl]
    rw [ih]
    have hstep : lastCsvMatch b (e :: es)
        = match lastCsvMatch b es with
          | some r => some r
          | none =>
            if isCsvName e.name ∧ basename e.name = b then some e else none := rfl
    rw [hstep]
    cases hl : lastCsvMatch b es with
    | some r => rfl
    | none =>
      unfold extractEntry
      by_cases hc : isCsvName e.name = true
      · rw [if_pos hc, lookupFS_writeFile]
        by_cases hb2 : basename e.name = b
        · rw [if_pos hb2.symm, if_pos ⟨hc, hb2⟩]
        · rw [if_neg (fun hx => hb2 hx.symm),
            if_neg (fun hx : isCsvName e.name ∧ basename e.name = b => hb2 hx.2)]
      · rw [if_neg hc, if_neg (fun hx : isCsvName e.name ∧ basename e.name = b => hc hx.1)]

theorem extractArchives_flatten (archives : List (List ZipEntry)) (fs : FS) :
    extractArchives fs archives = extractEntries fs archives.flatten := by
  induction archives generalizing fs with
  | nil => rfl
  | cons a as ih =>
    rw [show extractArchives fs (a :: as) = extractArchives (extractEntries fs a) as from rfl]
    rw [ih, show (a :: as).flatten = a ++ as.flatten from rfl]
    unfold extractEntries
    rw [List.foldl_append]

theorem lastCsvMatch_append (b : String) (l1 l2 : List ZipEntry) :
    lastCsvMatch b (l1 ++ l2)
      = match lastCsvMatch b l2 with
        | some r => some r
        | none => lastCsvMatch b l1 := by
  induction l1 with
  | nil =>
    rw [List.nil_append]
    cases lastCsvMatch b l2 <;> rfl
  | cons e l1 ih =>
    have hstep1 : lastCsvMatch b ((e :: l1) ++ l2)
        = match lastCsvMatch b (l1 ++ l2) with
          | some r => some r
          | none =>
            if isCsvName e.name ∧ basename e.name = b then some e else none := rfl
    have hstep2 : lastCsvMatch b (e :: l1)
        = match lastCsvMatch b l1 with
          | some r => some r
          | none =>
            if isCsvName e.name ∧ basename e.name = b then some e else none := rfl
    rw [hstep1, ih, hstep2]
    cases lastCsvMatch b l2 <;> rfl

/-- C9: when two CSV payload entries share a base filename, both are written
to the same extracted path, and after extraction the working directory holds
exactly the bytes of the entry processed later; if the two entries differed,
the earlier entry's bytes are no longer present at that path. -/
theorem c9_duplicate_basename_last_wins (fs0 : FS)
    (archives : List (List ZipEntry)) (pre mid post : List ZipEntry)
    (e1 e2 : ZipEntry)
    (hsplit : archives.flatten = pre ++ e1 :: (mid ++ e2 :: post))
    (h1 : isCsvName e1.name = true) (h2 : isCsvName e2.name = true)
    (hb : basename e1.name = basename e2.name)
    (hpost : lastCsvMatch (basename e2.name) post = none) :
    lookupFS (extractArchives fs0 archives) (basename e2.name) = some e2.bytes ∧
    (e2.bytes ≠ e1.bytes →
      lookupFS (extractArchives fs0 archives) (basename e2.name) ≠ some e1.bytes) := by
  have hlast : lastCsvMatch (basename e2.name)
      (pre ++ e1 :: (mid ++ e2 :: post)) = some e2 := by
    rw [lastCsvMatch_append]
    have h3 : lastCsvMatch (basename e2.name) (e1 :: (mid ++ e2 :: post)) = some e2 := by
      unfold lastCsvMatch
      rw [lastCsvMatch_append]
      have h4 : lastCsvMatch (basename e2.name) (e2 :: post) = some e2 := by
        unfold lastCsvMatch
        rw [hpost, if_pos ⟨h2, rfl⟩]
      rw [h4]
    rw [h3]
  have hmain : lookupFS (extractArchives fs0 archives) (basename e2.name)
      = some e2.bytes := by
    rw [extractArchives_flatten, hsplit, extractEntries_lookup, hlast]
  refine ⟨hmain, ?_⟩
  intro hne hcontra
  rw [hmain] at hcontra
  exact hne (Option.some.inj hcontra)

/-! ## Witnesses -/

theorem c2_witness :
    idxOf? "name" sampleDf.cols = some 0 ∧
    idxOf? "date" sampleDf.cols = some 1 ∧
    to_datetime (Cell.str "2024-01-01") = some 20240101 ∧
    to_datetime (Cell.str "2024-01-05") = some 20240105 ∧
    queryFilter sampleDf (Cell.str "A") (Cell.str "2024-01-01")
        (Cell.str "2024-01-05")
      = Except.ok
          ⟨sampleDf.cols,
            specViewRows sampleDf 0 1 (Cell.str "A") 20240101 20240105⟩ :=
  ⟨by decide, by decide, by decide, by decide,
    c2_query_filter_exact sampleDf (Cell.str "A") (Cell.str "2024-01-01")
      (Cell.str "2024-01-05") 0 1 20240101 20240105
      (by decide) (by decide) (by decide) (by decide)⟩

theorem c3_witness :
    queryFilter sampleDf (Cell.str "C") (Cell.str "2024-01-01")
        (Cell.str "2024-01-05") = Except.ok ⟨sampleDf.cols, []⟩ ∧
    (⟨sampleDf.cols, []⟩ : DataFrame).rows = [] ∧
    create_plot sampleDf (Cell.str "C") "time_to_takeoff" "mrsi"
        (Cell.str "2024-01-01") (Cell.str "2024-01-05")
      = Except.ok noDataNotice :=
  ⟨by decide, rfl,
    c3_empty_view_no_data_notice sampleDf (Cell.str "C") "time_to_takeoff"
      "mrsi" (Cell.str "2024-01-01") (Cell.str "2024-01-05")
      ⟨sampleDf.cols, []⟩ (by decide) rfl⟩

theorem c4_witness :
    queryFilter sampleDf (Cell.str "A") (Cell.str "2024-01-01")
        (Cell.str "2024-01-05") = Except.ok sampleView ∧
    sampleView.rows ≠ [] ∧
    ("nonexistent_column" ∉ sampleView.cols ∨ "mrsi" ∉ sampleView.cols) ∧
    (∃ c, create_plot sampleDf (Cell.str "A") "nonexistent_column" "mrsi"
          (Cell.str "2024-01-01") (Cell.str "2024-01-05")
        = Except.error (PlotError.missingColumn c) ∧
        (c = "nonexistent_column" ∨ c = "mrsi")) :=
  ⟨by decide, by decide, Or.inl (by decide),
    c4_missing_metric_error sampleDf (Cell.str "A") "nonexistent_column"
      "mrsi" (Cell.str "2024-01-01") (Cell.str "2024-01-05") sampleView
      (by decide) (by decide) (Or.inl (by decide))⟩

theorem c5_witness :
    buildUnified sampleSrcs = Except.ok sampleUnified ∧
    sampleUnified.rows.length = sumRowsLoaded sampleSrcs - droppedCount sampleSrcs :=
  ⟨by decide, c5_unified_row_count sampleSrcs sampleUnified (by decide)⟩

theorem c7_witness :
    queryFilter sampleDf (Cell.str "A") (Cell.str "2024-01-01")
        (Cell.str "2024-01-05") = Except.ok sampleView ∧
    (sampleView.cols = sampleDf.cols ∧
      ∀ r ∈ sampleView.rows, r ∈ sampleDf.rows) :=
  ⟨by decide,
    c7_filtered_view_subset sampleDf (Cell.str "A") (Cell.str "2024-01-01")
      (Cell.str "2024-01-05") sampleView (by decide)⟩

theorem c8_witness :
    startup sampleSrcs = Except.ok (sampleUnified, Cell.str "A") ∧
    (((fun _ : String => (none : Option String)) "athlete" = none →
        (resolveParams (fun _ => none) sampleUnified (Cell.str "A")).athlete
          = Cell.str "A") ∧
      (∃ ni, idxOf? "name" sampleUnified.cols = some ni ∧
        (column sampleUnified ni).head? = some (Cell.str "A")) ∧
      ((fun _ : String => (none : Option String)) "var1" = none →
        (resolveParams (fun _ => none) sampleUnified (Cell.str "A")).var1
          = "time_to_takeoff") ∧
      ((fun _ : String => (none : Option String)) "var2" = none →
        (resolveParams (fun _ => none) sampleUnified (Cell.str "A")).var2
          = "mrsi") ∧
      ((fun _ : String => (none : Option String)) "start_date" = none →
        (resolveParams (fun _ => none) sampleUnified (Cell.str "A")).startB
          = dateMin sampleUnified) ∧
      ((fun _ : String => (none : Option String)) "end_date" = none →
        (resolveParams (fun _ => none) sampleUnified (Cell.str "A")).endB
          = dateMax sampleUnified)) :=
  ⟨by decide,
    c8_defaults_substitution sampleSrcs sampleUnified (Cell.str "A")
      (fun _ => none) (by decide)⟩

theorem c9_witness :
    ([[ZipEntry.mk "zip1/data.csv" [1]],
      [ZipEntry.mk "zip2/data.csv" [2]]] : List (List ZipEntry)).flatten
      = [] ++ ZipEntry.mk "zip1/data.csv" [1] ::
          ([] ++ ZipEntry.mk "zip2/data.csv" [2] :: []) ∧
    isCsvName (ZipEntry.mk "zip1/data.csv" [1]).name = true ∧
    isCsvName (ZipEntry.mk "zip2/data.csv" [2]).name = true ∧
    basename (ZipEntry.mk "zip1/data.csv" [1]).name
      = basename (ZipEntry.mk "zip2/data.csv" [2]).name ∧
    lastCsvMatch (basename (ZipEntry.mk "zip2/data.csv" [2]).name) [] = none ∧
    (lookupFS
        (extractArchives []
          [[ZipEntry.mk "zip1/data.csv" [1]],
           [ZipEntry.mk "zip2/data.csv" [2]]])
        (basename (ZipEntry.mk "zip2/data.csv" [2]).name)
        = some (ZipEntry.mk "zip2/data.csv" [2]).bytes ∧
      ((ZipEntry.mk "zip2/data.csv" [2]).bytes
          ≠ (ZipEntry.mk "zip1/data.csv" [1]).bytes →
        lookupFS
            (extractArchives []
              [[ZipEntry.mk "zip1/data.csv" [1]],
               [ZipEntry.mk "zip2/data.csv" [2]]])
            (basename (ZipEntry.mk "zip2/data.csv" [2]).name)
          ≠ some (ZipEntry.mk "zip1/data.csv" [1]).bytes)) :=
  ⟨by decide, by decide, by decide, by decide, by decide,
    c9_duplicate_basename_last_wins []
      [[ZipEntry.mk "zip1/data.csv" [1]], [ZipEntry.mk "zip2/data.csv" [2]]]
      [] [] [] (ZipEntry.mk "zip1/data.csv" [1])
      (ZipEntry.mk "zip2/data.csv" [2])
      (by decide) (by decide) (by decide) (by decide) (by decide)⟩

theorem c10_witness :
    startup sampleSrcs = Except.ok (sampleUnified, Cell.str "A") ∧
    ("name" ∈ sampleUnified.cols ∧ sampleUnified.rows ≠ []) :=
  ⟨by decide,
    c10_startup_requires_name_nonempty sampleSrcs sampleUnified
      (Cell.str "A") (by decide)⟩
